import Mathlib

/-!
Verification of the imagery-acquisition engine of a street-level imagery
pipeline (coverage checking, batch downloading with skip-existing
resumability, and equirectangular panorama cropping).

The embedding follows the Python sources `gsview/streetview.py` and
`gsview/downloader.py`:

* Images are pixel grids with integer coordinates (`Img`), with the PIL
  operations `crop`, `new` and `paste` modelled exactly on the rectangles
  the code passes them (out-of-range reads are the fill colour 0).
* Python `int(x)` on the exact value of `(a / b) * c` is truncation toward
  zero of the rational `a * c / b`, i.e. `Int.tdiv (a * c) b`; Python `//`
  is flooring division `Int.fdiv`, and `%` on a non-negative modulus is
  `Int.emod` (the `%` of `ℤ`).
* Network, panorama-service and file-save effects are oracles passed in as
  functions returning `Except String _` (an `Except.error` is a raised
  `requests.RequestException` / `streetlevel` exception); the filesystem is
  a set of paths `FS`.
-/

/-- A bitmap: width, height, and a pixel lookup on integer coordinates.
Reads outside `[0, w) × [0, h)` are never produced by the modelled
operations; crops guard their own rectangle and fill with 0 (PIL's fill). -/
@[ext]
structure Img where
  w : ℕ
  h : ℕ
  pix : ℤ → ℤ → ℕ

/-- PIL `img.crop((l, t, r, b))`: an `(r−l) × (b−t)` image whose pixel
`(x, y)` is `img`'s pixel `(l+x, t+y)`, 0 outside the source or the crop
rectangle. -/
def Img.crop (img : Img) (l t r b : ℤ) : Img :=
  { w := (r - l).toNat
    h := (b - t).toNat
    pix := fun x y =>
      if 0 ≤ x ∧ x < r - l ∧ 0 ≤ y ∧ y < b - t ∧
          0 ≤ l + x ∧ l + x < (img.w : ℤ) ∧ 0 ≤ t + y ∧ t + y < (img.h : ℤ) then
        img.pix (l + x) (t + y)
      else 0 }

/-- PIL `Image.new("RGB", (cw, ch))`: a black image. -/
def Img.new (cw ch : ℕ) : Img :=
  { w := cw, h := ch, pix := fun _ _ => 0 }

/-- PIL `canvas.paste(part, (x0, y0))`: overwrite the pixels of `canvas`
covered by `part` placed at offset `(x0, y0)`, clipped to the canvas. -/
def Img.paste (canvas part : Img) (x0 y0 : ℤ) : Img :=
  { w := canvas.w
    h := canvas.h
    pix := fun x y =>
      if x0 ≤ x ∧ x < x0 + (part.w : ℤ) ∧ y0 ≤ y ∧ y < y0 + (part.h : ℤ) ∧
          0 ≤ x ∧ x < (canvas.w : ℤ) ∧ 0 ≤ y ∧ y < (canvas.h : ℤ) then
        part.pix (x - x0) (y - y0)
      else canvas.pix x y }

/-- `center_x = int((heading / 360.0) * w) % w` (`_crop_panorama`,
streetview.py line 371), in exact arithmetic. -/
def centerX (heading : ℤ) (w : ℕ) : ℤ := ((heading * w).tdiv 360) % (w : ℤ)

/-- `center_y = int(h / 2 - (pitch / 180.0) * h)` (line 373); the exact
value is `h * (90 − pitch) / 180`. -/
def centerY (pitch : ℤ) (h : ℕ) : ℤ := ((h : ℤ) * (90 - pitch)).tdiv 180

/-- `crop_w = int((fov / 360.0) * w)` (line 375); `crop_h = crop_w`. -/
def cropW (fov : ℤ) (w : ℕ) : ℤ := (fov * w).tdiv 360

/-- `left = center_x - crop_w // 2` (line 378). -/
def leftEdge (heading fov : ℤ) (w : ℕ) : ℤ :=
  centerX heading w - (cropW fov w).fdiv 2

/-- `right = center_x + crop_w // 2` (line 379). -/
def rightEdge (heading fov : ℤ) (w : ℕ) : ℤ :=
  centerX heading w + (cropW fov w).fdiv 2

/-- `top = max(0, center_y - crop_h // 2)` (line 380). -/
def topEdge (pitch fov : ℤ) (w h : ℕ) : ℤ :=
  max 0 (centerY pitch h - (cropW fov w).fdiv 2)

/-- `bottom = min(h, center_y + crop_h // 2)` (line 381). -/
def bottomEdge (pitch fov : ℤ) (w h : ℕ) : ℤ :=
  min (h : ℤ) (centerY pitch h + (cropW fov w).fdiv 2)

/-- The wraparound branch of `_crop_panorama` (streetview.py lines
384–394): split the crop at the seam into two sub-crops and paste them
side by side, left part first, onto a fresh `crop_w × (bottom−top)`
canvas. -/
def splitCompose (img : Img) (l r t b cw : ℤ) : Img :=
  if l < 0 then
    let leftPart := img.crop ((img.w : ℤ) + l) t (img.w : ℤ) b
    let rightPart := img.crop 0 t r b
    ((Img.new cw.toNat (b - t).toNat).paste leftPart 0 0).paste rightPart (leftPart.w : ℤ) 0
  else
    let leftPart := img.crop l t (img.w : ℤ) b
    let rightPart := img.crop 0 t (r - (img.w : ℤ)) b
    ((Img.new cw.toNat (b - t).toNat).paste leftPart 0 0).paste rightPart (leftPart.w : ℤ) 0

/-- `_crop_panorama(img, heading, pitch, fov)` (streetview.py lines
344–396): wraparound branch when `left < 0 or right > w`, otherwise a
single direct crop. -/
def cropPanorama (img : Img) (heading pitch fov : ℤ) : Img :=
  if leftEdge heading fov img.w < 0 ∨ (img.w : ℤ) < rightEdge heading fov img.w then
    splitCompose img (leftEdge heading fov img.w) (rightEdge heading fov img.w)
      (topEdge pitch fov img.w img.h) (bottomEdge pitch fov img.w img.h)
      (cropW fov img.w)
  else
    img.crop (leftEdge heading fov img.w) (topEdge pitch fov img.w img.h)
      (rightEdge heading fov img.w) (bottomEdge pitch fov img.w img.h)

/-- Concrete 1004 × 500 panorama used in counterexamples (odd `crop_w` at
`fov = 90` since `int(90/360*1004) = 251`). -/
def oddImg : Img := { w := 1004, h := 500, pix := fun x y => (x + 2 * y).toNat }

/-- Concrete 1000 × 500 panorama used in witnesses (even `crop_w = 250` at
`fov = 90`). -/
def evenImg : Img := { w := 1000, h := 500, pix := fun x y => (3 * x + y).toNat }

example : cropW 90 1004 = 251 := by decide
example : cropW 90 1000 = 250 := by decide
example : centerX 180 1004 = 502 := by decide
example : (cropPanorama oddImg 180 0 90).w = 250 := by decide
example : (cropPanorama oddImg 0 0 90).w = 251 := by decide
example : (cropPanorama evenImg 180 0 90).w = 250 := by decide

/-! ### Geometry lemmas for the crop algorithm -/

lemma centerX_nonneg (heading : ℤ) (w : ℕ) (hh : 0 ≤ heading) :
    0 ≤ centerX heading w := by
  rcases Nat.eq_zero_or_pos w with h0 | hpos
  · subst h0
    simp only [centerX, Nat.cast_zero, Int.emod_zero]
    exact Int.tdiv_nonneg (by positivity) (by omega)
  · exact Int.emod_nonneg _ (by exact_mod_cast Nat.pos_iff_ne_zero.mp hpos)

lemma centerX_lt_or (heading : ℤ) (w : ℕ) :
    centerX heading w < (w : ℤ) ∨ w = 0 := by
  rcases Nat.eq_zero_or_pos w with h0 | hpos
  · exact Or.inr h0
  · exact Or.inl (Int.emod_lt_of_pos _ (by exact_mod_cast hpos))

lemma cropW_nonneg (fov : ℤ) (w : ℕ) (hf : 0 ≤ fov) : 0 ≤ cropW fov w :=
  Int.tdiv_nonneg (by positivity) (by omega)

lemma centerY_nonneg (pitch : ℤ) (h : ℕ) (hp : pitch ≤ 90) : 0 ≤ centerY pitch h :=
  Int.tdiv_nonneg (mul_nonneg (by positivity) (by omega)) (by omega)

lemma centerY_le (pitch : ℤ) (h : ℕ) (hp1 : -90 ≤ pitch) (hp2 : pitch ≤ 90) :
    centerY pitch h ≤ (h : ℤ) := by
  rw [centerY, Int.tdiv_eq_ediv (mul_nonneg (by positivity) (by omega)) (by omega)]
  have hq := Int.emod_add_ediv ((h : ℤ) * (90 - pitch)) 180
  have h1 : 0 ≤ ((h : ℤ) * (90 - pitch)) % 180 := Int.emod_nonneg _ (by omega)
  have h2 : (h : ℤ) * (90 - pitch) ≤ (h : ℤ) * 180 :=
    mul_le_mul_of_nonneg_left (by omega) (by positivity)
  omega

lemma tdiv_eq_ratFloor (a : ℤ) (d : ℕ) (ha : 0 ≤ a) (hd : 0 < d) :
    a.tdiv d = ⌊(a : ℚ) / (d : ℚ)⌋ := by
  rw [Rat.floor_intCast_div_natCast, Int.tdiv_eq_ediv ha (by positivity)]

lemma centerX_eq_floor (heading : ℤ) (w : ℕ) (hh : 0 ≤ heading) :
    centerX heading w = ⌊(heading : ℚ) / 360 * w⌋ % (w : ℤ) := by
  have h1 : (heading * w).tdiv 360 = ⌊((heading * (w : ℤ) : ℤ) : ℚ) / ((360 : ℕ) : ℚ)⌋ :=
    tdiv_eq_ratFloor _ 360 (mul_nonneg hh (by positivity)) (by omega)
  have h2 : ((heading * (w : ℤ) : ℤ) : ℚ) / ((360 : ℕ) : ℚ) = (heading : ℚ) / 360 * w := by
    push_cast
    ring
  rw [centerX, h1, h2]

lemma centerY_eq_floor (pitch : ℤ) (h : ℕ) (hp : pitch ≤ 90) :
    centerY pitch h = ⌊(h : ℚ) / 2 - (pitch : ℚ) / 180 * h⌋ := by
  have h1 : ((h : ℤ) * (90 - pitch)).tdiv 180
      = ⌊(((h : ℤ) * (90 - pitch) : ℤ) : ℚ) / ((180 : ℕ) : ℚ)⌋ :=
    tdiv_eq_ratFloor _ 180 (mul_nonneg (by positivity) (by omega)) (by omega)
  have h2 : (((h : ℤ) * (90 - pitch) : ℤ) : ℚ) / ((180 : ℕ) : ℚ)
      = (h : ℚ) / 2 - (pitch : ℚ) / 180 * h := by
    push_cast
    ring
  rw [centerY, h1, h2]

lemma cropW_eq_floor (fov : ℤ) (w : ℕ) (hf : 0 ≤ fov) :
    cropW fov w = ⌊(fov : ℚ) / 360 * w⌋ := by
  have h1 : (fov * w).tdiv 360 = ⌊((fov * (w : ℤ) : ℤ) : ℚ) / ((360 : ℕ) : ℚ)⌋ :=
    tdiv_eq_ratFloor _ 360 (mul_nonneg hf (by positivity)) (by omega)
  have h2 : ((fov * (w : ℤ) : ℤ) : ℚ) / ((360 : ℕ) : ℚ) = (fov : ℚ) / 360 * w := by
    push_cast
    ring
  rw [cropW, h1, h2]

lemma splitCompose_w (img : Img) (l r t b cw : ℤ) :
    (splitCompose img l r t b cw).w = cw.toNat := by
  rw [splitCompose]
  split <;> rfl

lemma splitCompose_h (img : Img) (l r t b cw : ℤ) :
    (splitCompose img l r t b cw).h = (b - t).toNat := by
  rw [splitCompose]
  split <;> rfl

lemma cropPanorama_h (img : Img) (heading pitch fov : ℤ) :
    (cropPanorama img heading pitch fov).h
      = (bottomEdge pitch fov img.w img.h - topEdge pitch fov img.w img.h).toNat := by
  rw [cropPanorama]
  split
  · exact splitCompose_h ..
  · rfl

/-- Claim C3 (corrected): the code computes the crop geometry with Python
`int()` truncation, not `round`; with truncation (equal to `⌊·⌋` on these
non-negative quantities) the stated formulas hold, and `center_x` is
non-negative. -/
theorem C3_crop_formulas (heading pitch fov : ℤ) (w h : ℕ)
    (hh : 0 ≤ heading) (hf : 0 ≤ fov) (hp : pitch ≤ 90) :
    centerX heading w = ⌊(heading : ℚ) / 360 * w⌋ % (w : ℤ) ∧
    0 ≤ centerX heading w ∧
    centerY pitch h = ⌊(h : ℚ) / 2 - (pitch : ℚ) / 180 * h⌋ ∧
    cropW fov w = ⌊(fov : ℚ) / 360 * w⌋ :=
  ⟨centerX_eq_floor heading w hh, centerX_nonneg heading w hh,
    centerY_eq_floor pitch h hp, cropW_eq_floor fov w hf⟩

/-- Claim C3, counterexample to the claim as stated: at `fov = 1`,
`w = 1000` the code's `crop_w = int(1/360*1000) = 2`, while
`round(1/360*1000) = 3`; likewise for `center_x` at `heading = 1`. -/
theorem C3_round_counterexample :
    cropW 1 1000 = 2 ∧ round ((1 : ℚ) / 360 * 1000) = 3 ∧
    centerX 1 1000 = 2 ∧ round ((1 : ℚ) / 360 * 1000) % (1000 : ℤ) = 3 := by
  refine ⟨by decide, ?_, by decide, ?_⟩ <;> norm_num [round_eq]

/-- Claim C3 witness: the corrected formulas evaluated at
`heading = 90`, `pitch = 0`, `fov = 90`, `w = 1000`, `h = 500`. -/
theorem C3_witness :
    centerX 90 1000 = ⌊((90 : ℤ) : ℚ) / 360 * ((1000 : ℕ) : ℚ)⌋ % ((1000 : ℕ) : ℤ) ∧
    0 ≤ centerX 90 1000 ∧
    centerY 0 500 = ⌊((500 : ℕ) : ℚ) / 2 - ((0 : ℤ) : ℚ) / 180 * ((500 : ℕ) : ℚ)⌋ ∧
    cropW 90 1000 = ⌊((90 : ℤ) : ℚ) / 360 * ((1000 : ℕ) : ℚ)⌋ :=
  C3_crop_formulas 90 0 90 1000 500 (by decide) (by decide) (by decide)

/-- Claim C7 (confirmed): for any pitch in `[-90, 90]` the clamped crop
bounds satisfy `0 ≤ top ≤ bottom ≤ h`, and the output image height equals
`bottom − top` in both branches of the crop. -/
theorem C7_pole_clamping (img : Img) (heading pitch fov : ℤ)
    (hp1 : -90 ≤ pitch) (hp2 : pitch ≤ 90) (hf : 0 ≤ fov) :
    0 ≤ topEdge pitch fov img.w img.h ∧
    topEdge pitch fov img.w img.h ≤ bottomEdge pitch fov img.w img.h ∧
    bottomEdge pitch fov img.w img.h ≤ (img.h : ℤ) ∧
    ((cropPanorama img heading pitch fov).h : ℤ)
      = bottomEdge pitch fov img.w img.h - topEdge pitch fov img.w img.h := by
  have hcy0 := centerY_nonneg pitch img.h hp2
  have hcyh := centerY_le pitch img.h hp1 hp2
  have hc2 : 0 ≤ (cropW fov img.w).fdiv 2 :=
    Int.fdiv_nonneg (cropW_nonneg fov img.w hf) (by omega)
  refine ⟨?_, ?_, ?_, ?_⟩
  · rw [topEdge]
    omega
  · rw [topEdge, bottomEdge]
    omega
  · rw [bottomEdge]
    omega
  · rw [cropPanorama_h]
    rw [topEdge, bottomEdge]
    omega

/-- Claim C7 witness: at `pitch = 90` (a pole), `fov = 90` on a
1000 × 500 panorama: `top = 0`, `bottom = 125`, output height 125. -/
theorem C7_witness :
    0 ≤ topEdge 90 90 1000 500 ∧
    topEdge 90 90 1000 500 ≤ bottomEdge 90 90 1000 500 ∧
    bottomEdge 90 90 1000 500 ≤ ((500 : ℕ) : ℤ) ∧
    ((cropPanorama evenImg 0 90 90).h : ℤ)
      = bottomEdge 90 90 1000 500 - topEdge 90 90 1000 500 :=
  C7_pole_clamping evenImg 0 90 90 (by decide) (by decide) (by decide)

/-- Claim C4 (corrected): the output height is `bottom − top` in both
branches, and the wraparound canvas is exactly `crop_w` wide; but the
direct single-crop branch produces width `right − left = 2*(crop_w // 2)`
(equal to `crop_w` only when `crop_w` is even), and the two wraparound
sub-crops' combined width is likewise `2*(crop_w // 2)`, one pixel short
of `crop_w` when `crop_w` is odd. -/
theorem C4_output_dimensions (img : Img) (heading pitch fov : ℤ)
    (hh : 0 ≤ heading) (hf : 0 ≤ fov) :
    (cropPanorama img heading pitch fov).h
      = (bottomEdge pitch fov img.w img.h - topEdge pitch fov img.w img.h).toNat ∧
    ((leftEdge heading fov img.w < 0 ∨ (img.w : ℤ) < rightEdge heading fov img.w) →
      (cropPanorama img heading pitch fov).w = (cropW fov img.w).toNat) ∧
    (¬(leftEdge heading fov img.w < 0 ∨ (img.w : ℤ) < rightEdge heading fov img.w) →
      ((cropPanorama img heading pitch fov).w : ℤ)
        = rightEdge heading fov img.w - leftEdge heading fov img.w) ∧
    rightEdge heading fov img.w - leftEdge heading fov img.w
      = 2 * (cropW fov img.w).fdiv 2 ∧
    (leftEdge heading fov img.w < 0 →
      ((img.crop ((img.w : ℤ) + leftEdge heading fov img.w)
            (topEdge pitch fov img.w img.h) (img.w : ℤ)
            (bottomEdge pitch fov img.w img.h)).w
        + (img.crop 0 (topEdge pitch fov img.w img.h)
            (rightEdge heading fov img.w) (bottomEdge pitch fov img.w img.h)).w : ℤ)
        = rightEdge heading fov img.w - leftEdge heading fov img.w) ∧
    ((0 ≤ leftEdge heading fov img.w ∧ (img.w : ℤ) < rightEdge heading fov img.w) →
      ((img.crop (leftEdge heading fov img.w) (topEdge pitch fov img.w img.h)
            (img.w : ℤ) (bottomEdge pitch fov img.w img.h)).w
        + (img.crop 0 (topEdge pitch fov img.w img.h)
            (rightEdge heading fov img.w - (img.w : ℤ))
            (bottomEdge pitch fov img.w img.h)).w : ℤ)
        = rightEdge heading fov img.w - leftEdge heading fov img.w) := by
  have hcx0 := centerX_nonneg heading img.w hh
  have hcx_zero : img.w = 0 → centerX heading img.w = 0 := fun h0 => by
    rw [centerX, h0]
    simp
  have hc2 : 0 ≤ (cropW fov img.w).fdiv 2 :=
    Int.fdiv_nonneg (cropW_nonneg fov img.w hf) (by omega)
  refine ⟨cropPanorama_h .., ?_, ?_, ?_, ?_, ?_⟩
  · intro hcond
    rw [cropPanorama, if_pos hcond]
    exact splitCompose_w ..
  · intro hcond
    rw [cropPanorama, if_neg hcond]
    show (((rightEdge heading fov img.w - leftEdge heading fov img.w).toNat : ℤ)) = _
    rw [leftEdge, rightEdge] at *
    omega
  · rw [leftEdge, rightEdge]
    ring
  · intro hneg
    show ((((img.w : ℤ) - ((img.w : ℤ) + leftEdge heading fov img.w)).toNat : ℕ)
        + ((rightEdge heading fov img.w - 0).toNat : ℕ) : ℤ) = _
    rw [leftEdge, rightEdge] at *
    omega
  · intro hpos
    rcases centerX_lt_or heading img.w with hlt | h0
    · show ((((img.w : ℤ) - leftEdge heading fov img.w).toNat : ℕ)
          + ((rightEdge heading fov img.w - (img.w : ℤ) - 0).toNat : ℕ) : ℤ) = _
      rw [leftEdge, rightEdge] at *
      omega
    · have hz := hcx_zero h0
      show ((((img.w : ℤ) - leftEdge heading fov img.w).toNat : ℕ)
          + ((rightEdge heading fov img.w - (img.w : ℤ) - 0).toNat : ℕ) : ℤ) = _
      rw [leftEdge, rightEdge] at *
      omega

/-- Claim C4 counterexample: on a 1004-wide panorama at `fov = 90`
(`crop_w = 251`, odd), the direct branch at `heading = 180` outputs width
250 ≠ `crop_w`, and at `heading = 0` (wraparound) the two sub-crops'
widths sum to 250 ≠ `crop_w`, though the canvas is 251 wide. -/
theorem C4_counterexample :
    cropW 90 1004 = 251 ∧
    (cropPanorama oddImg 180 0 90).w = 250 ∧
    leftEdge 0 90 1004 < 0 ∧
    (oddImg.crop ((1004 : ℤ) + leftEdge 0 90 1004) (topEdge 0 90 1004 500)
        1004 (bottomEdge 0 90 1004 500)).w
      + (oddImg.crop 0 (topEdge 0 90 1004 500) (rightEdge 0 90 1004)
          (bottomEdge 0 90 1004 500)).w = 250 ∧
    (cropPanorama oddImg 0 0 90).w = 251 := by
  decide

/-- Claim C4 witness: the corrected dimension facts at `heading = 180`,
`pitch = 0`, `fov = 90` on the 1004 × 500 panorama. -/
theorem C4_witness :
    (cropPanorama oddImg 180 0 90).h
      = (bottomEdge 0 90 1004 500 - topEdge 0 90 1004 500).toNat ∧
    rightEdge 180 90 1004 - leftEdge 180 90 1004 = 2 * (cropW 90 1004).fdiv 2 ∧
    ((cropPanorama oddImg 180 0 90).w : ℤ) = rightEdge 180 90 1004 - leftEdge 180 90 1004 := by
  have h := C4_output_dimensions oddImg 180 0 90 (by decide) (by decide)
  exact ⟨h.1, h.2.2.2.1, h.2.2.1 (by decide)⟩

lemma centerX_360 (w : ℕ) : centerX 360 w = 0 := by
  rw [centerX, show ((360 : ℤ) * w) = 360 * w from rfl, Int.mul_tdiv_cancel_left _ (by omega)]
  exact Int.emod_self

lemma centerX_zero (w : ℕ) : centerX 0 w = 0 := by
  rw [centerX]
  simp

/-- Claim C5 (confirmed): cropping at heading 0 and heading 360 produces
identical output for every panorama, pitch and fov: both headings reduce
to `center_x = 0` via the modulo, and (whenever `crop_w // 2 > 0`) both
take the wraparound branch with `left < 0`. -/
theorem C5_heading_wraparound (img : Img) (pitch fov : ℤ) :
    centerX 360 img.w = centerX 0 img.w ∧
    cropPanorama img 360 pitch fov = cropPanorama img 0 pitch fov ∧
    (0 < (cropW fov img.w).fdiv 2 →
      (leftEdge 360 fov img.w < 0 ∧ leftEdge 0 fov img.w < 0)) := by
  have hcx : centerX 360 img.w = centerX 0 img.w := by
    rw [centerX_360, centerX_zero]
  have hl : leftEdge 360 fov img.w = leftEdge 0 fov img.w := by
    rw [leftEdge, leftEdge, hcx]
  have hr : rightEdge 360 fov img.w = rightEdge 0 fov img.w := by
    rw [rightEdge, rightEdge, hcx]
  refine ⟨hcx, ?_, ?_⟩
  · rw [cropPanorama, cropPanorama, hl, hr]
  · intro hpos
    rw [hl, leftEdge, centerX_zero]
    omega

/-- Claim C5 witness: at `fov = 90` on the 1000 × 500 panorama both
headings 0 and 360 wrap (`left = −125 < 0`) and the crops coincide. -/
theorem C5_witness :
    cropPanorama evenImg 360 0 90 = cropPanorama evenImg 0 0 90 ∧
    leftEdge 360 90 1000 < 0 ∧ leftEdge 0 90 1000 < 0 :=
  ⟨(C5_heading_wraparound evenImg 0 90).2.1,
    (C5_heading_wraparound evenImg 0 90).2.2 (by decide)⟩

lemma splitCompose_eq_crop (img : Img) (l r t b cw : ℤ)
    (hl : 0 ≤ l) (hr : r ≤ (img.w : ℤ)) (hcw : 0 ≤ cw) (hrl : r - l = cw) :
    splitCompose img l r t b cw = img.crop l t r b := by
  rw [splitCompose, if_neg (by omega)]
  simp only [Img.paste, Img.crop, Img.new]
  ext x y
  · show cw.toNat = (r - l).toNat
    omega
  · rfl
  · simp only [zero_add, add_zero, sub_zero]
    split_ifs <;> first | rfl | omega

lemma two_mul_fdiv_two_of_even (cw : ℤ) (he : cw % 2 = 0) : 2 * cw.fdiv 2 = cw := by
  rw [Int.fdiv_eq_ediv _ (by omega)]
  omega

/-- Claim C6 (corrected): when the crop fits (`left ≥ 0` and `right ≤ w`)
the wraparound split-and-compose procedure and the direct single crop are
pixel-identical *provided `crop_w` is even*; for odd `crop_w` they differ
in width (`crop_w` vs `crop_w − 1`). -/
theorem C6_no_wraparound_equivalence (img : Img) (heading pitch fov : ℤ)
    (hf : 0 ≤ fov)
    (hl : 0 ≤ leftEdge heading fov img.w)
    (hr : rightEdge heading fov img.w ≤ (img.w : ℤ))
    (he : cropW fov img.w % 2 = 0) :
    splitCompose img (leftEdge heading fov img.w) (rightEdge heading fov img.w)
        (topEdge pitch fov img.w img.h) (bottomEdge pitch fov img.w img.h)
        (cropW fov img.w)
      = img.crop (leftEdge heading fov img.w) (topEdge pitch fov img.w img.h)
          (rightEdge heading fov img.w) (bottomEdge pitch fov img.w img.h) := by
  refine splitCompose_eq_crop img _ _ _ _ _ hl hr (cropW_nonneg fov img.w hf) ?_
  rw [leftEdge, rightEdge]
  have := two_mul_fdiv_two_of_even (cropW fov img.w) he
  omega

/-- Claim C6 counterexample: on the 1004-wide panorama at `heading = 180`,
`fov = 90` (odd `crop_w = 251`) the claim's hypotheses hold
(`left = 377 ≥ 0`, `right = 627 ≤ 1004`) yet the split-and-compose output
is 251 wide while the direct crop is 250 wide — not pixel-identical. -/
theorem C6_counterexample :
    0 ≤ leftEdge 180 90 1004 ∧ rightEdge 180 90 1004 ≤ (1004 : ℤ) ∧
    (splitCompose oddImg (leftEdge 180 90 1004) (rightEdge 180 90 1004)
        (topEdge 0 90 1004 500) (bottomEdge 0 90 1004 500) (cropW 90 1004)).w = 251 ∧
    (oddImg.crop (leftEdge 180 90 1004) (topEdge 0 90 1004 500)
        (rightEdge 180 90 1004) (bottomEdge 0 90 1004 500)).w = 250 := by
  decide

/-- Claim C6 witness: on the 1000-wide panorama at `heading = 180`,
`fov = 90` (`crop_w = 250`, even) the two code paths agree exactly. -/
theorem C6_witness :
    (0 ≤ leftEdge 180 90 1000 ∧ rightEdge 180 90 1000 ≤ (1000 : ℤ) ∧
      cropW 90 1000 % 2 = 0) ∧
    splitCompose evenImg (leftEdge 180 90 1000) (rightEdge 180 90 1000)
        (topEdge 0 90 1000 500) (bottomEdge 0 90 1000 500) (cropW 90 1000)
      = evenImg.crop (leftEdge 180 90 1000) (topEdge 0 90 1000 500)
          (rightEdge 180 90 1000) (bottomEdge 0 90 1000 500) :=
  ⟨by decide,
    C6_no_wraparound_equivalence evenImg 180 0 90 (by decide) (by decide)
      (by decide) (by decide)⟩

/-! ### File naming (streetview.py lines 245 and 486, downloader.py lines 116 and 233) -/

/-- Left-pad a decimal string with zeros to width `k`. -/
def padZeros (k : ℕ) (s : String) : String :=
  String.mk (List.replicate (k - s.length) '0') ++ s

/-- Python `f"{n:03d}"`: width 3, zero-padded, sign only when negative. -/
def fmtZ3 (n : ℤ) : String :=
  if n < 0 then "-" ++ padZeros 2 (toString n.natAbs)
  else padZeros 3 (toString n.toNat)

/-- Python `f"{n:+03d}"`: width 3, zero-padded, sign always shown. -/
def fmtS3 (n : ℤ) : String :=
  if n < 0 then "-" ++ padZeros 2 (toString n.natAbs)
  else "+" ++ padZeros 2 (toString n.toNat)

/-- Filename built by `StreetViewClient.download_location_images`
(streetview.py line 245): `f"{location_id}_h{heading:03d}_p{pitch:+03d}.jpg"`. -/
def imageFilename (location_id : String) (heading pitch : ℤ) : String :=
  location_id ++ "_h" ++ fmtZ3 heading ++ "_p" ++ fmtS3 pitch ++ ".jpg"

/-- Filename built by `download_location_hires` (streetview.py line 486),
textually the same f-string. -/
def hiresFilename (location_id : String) (heading pitch : ℤ) : String :=
  location_id ++ "_h" ++ fmtZ3 heading ++ "_p" ++ fmtS3 pitch ++ ".jpg"

/-- Expected filename computed by the batch layer's skip-existing check
(downloader.py lines 116 and 233), again the same f-string. -/
def expectedFilename (location_id : String) (heading pitch : ℤ) : String :=
  location_id ++ "_h" ++ fmtZ3 heading ++ "_p" ++ fmtS3 pitch ++ ".jpg"

/-- `output_dir / filename` (pathlib join). -/
def joinPath (dir file : String) : String := dir ++ "/" ++ file

/-! ### Data model -/

/-- One row of the input locations table consumed by the batch loops. -/
structure Row where
  location_id : String
  lat : ℚ
  lon : ℚ
  city : String
  pano_id : Option String := none
deriving DecidableEq

/-- `CoverageResult` dataclass (streetview.py lines 19–28). -/
structure CoverageResult where
  lat : ℚ
  lon : ℚ
  has_coverage : Bool
  pano_id : Option String := none
  capture_date : Option String := none
  status : String := "OK"
deriving DecidableEq

/-- `ImageResult` dataclass (streetview.py lines 31–41). -/
structure ImageResult where
  lat : ℚ
  lon : ℚ
  heading : ℤ
  pitch : ℤ
  success : Bool
  image_path : Option String := none
  error : Option String := none
deriving DecidableEq

/-- Filesystem model: the set of files that exist, as a Boolean predicate
on paths. -/
def FS : Type := String → Bool

/-- Writing a file creates it. -/
def FS.insert (fs : FS) (p : String) : FS := fun q => if q = p then true else fs q

/-- `FS.le fs fs'`: every file of `fs` also exists in `fs'`. -/
def FS.le (fs fs' : FS) : Prop := ∀ p, fs p = true → fs' p = true

lemma FS.le_refl (fs : FS) : FS.le fs fs := fun _ h => h

lemma FS.le_trans {a b c : FS} (h1 : FS.le a b) (h2 : FS.le b c) : FS.le a c :=
  fun p hp => h2 p (h1 p hp)

lemma FS.le_insert (fs : FS) (p : String) : FS.le fs (fs.insert p) := by
  intro q hq
  rw [FS.insert]
  split <;> simp_all

lemma FS.insert_self (fs : FS) (p : String) : (fs.insert p) p = true := by
  rw [FS.insert]
  simp

/-! ### Coverage client and coverage batch -/

/-- Parsed JSON body of a metadata response: the `status`, `pano_id` and
`date` fields, each possibly absent. -/
structure MetadataBody where
  status : Option String
  pano_id : Option String
  date : Option String
deriving DecidableEq

/-- An HTTP response: status code plus parsed JSON body. -/
structure HttpResponse where
  code : ℕ
  body : MetadataBody
deriving DecidableEq

/-- `response.raise_for_status()`: `requests` raises exactly for status
codes ≥ 400. -/
def raise_for_status (code : ℕ) : Except String Unit :=
  if 400 ≤ code then .error ("HTTP error " ++ toString code) else .ok ()

/-- `StreetViewClient.check_coverage` (streetview.py lines 79–118) over a
network oracle `cnet` standing for `requests.get` (an `.error` is a raised
transport exception). After `raise_for_status`, the body is parsed:
`status = data.get("status", "UNKNOWN")`, `has_coverage = status == "OK"`,
`pano_id` and `date` passed through. There is no try/except here:
transport errors propagate to the caller. -/
def check_coverage (cnet : ℚ → ℚ → Except String HttpResponse) (lat lon : ℚ) :
    Except String CoverageResult :=
  match cnet lat lon with
  | .error e => .error e
  | .ok resp =>
    match raise_for_status resp.code with
    | .error e => .error e
    | .ok _ =>
      .ok { lat := lat, lon := lon,
            has_coverage := (resp.body.status.getD "UNKNOWN") == "OK",
            pano_id := resp.body.pano_id,
            capture_date := resp.body.date,
            status := resp.body.status.getD "UNKNOWN" }

/-- One row of the coverage batch's result table (downloader.py lines
43–54); note it has no error/failed column. -/
structure CovRec where
  location_id : String
  city : String
  lat : ℚ
  lon : ℚ
  has_coverage : Bool
  pano_id : Option String
  capture_date : Option String
  status : String
deriving DecidableEq

/-- `check_coverage_batch` (downloader.py lines 11–63): iterate rows in
order, appending one record per row. `client.check_coverage` is called
outside any try/except, so a raised exception aborts the whole loop and
discards the accumulated records — modelled by the `Except` monad. -/
def check_coverage_batch (cnet : ℚ → ℚ → Except String HttpResponse) :
    List Row → Except String (List CovRec)
  | [] => .ok []
  | row :: rest =>
    match check_coverage cnet row.lat row.lon with
    | .error e => .error e
    | .ok r =>
      match check_coverage_batch cnet rest with
      | .error e => .error e
      | .ok rs =>
        .ok ({ location_id := row.location_id, city := row.city,
               lat := row.lat, lon := row.lon,
               has_coverage := r.has_coverage, pano_id := r.pano_id,
               capture_date := r.capture_date, status := r.status } :: rs)

/-- Claim C8 (confirmed): on a 2xx metadata response `check_coverage`
raises nothing and returns a result whose `has_coverage` is true iff the
parsed status is the success code "OK"; any other status (e.g.
"ZERO_RESULTS") yields `has_coverage = false` with the status preserved. -/
theorem C8_status_interpretation (cnet : ℚ → ℚ → Except String HttpResponse)
    (lat lon : ℚ) (resp : HttpResponse)
    (hnet : cnet lat lon = .ok resp) (h2 : 200 ≤ resp.code) (h3 : resp.code < 300) :
    ∃ r : CoverageResult, check_coverage cnet lat lon = .ok r ∧
      (r.has_coverage = true ↔ r.status = "OK") ∧
      r.status = resp.body.status.getD "UNKNOWN" ∧
      r.pano_id = resp.body.pano_id ∧
      r.capture_date = resp.body.date := by
  have hr : check_coverage cnet lat lon = .ok
      { lat := lat, lon := lon,
        has_coverage := (resp.body.status.getD "UNKNOWN") == "OK",
        pano_id := resp.body.pano_id, capture_date := resp.body.date,
        status := resp.body.status.getD "UNKNOWN" } := by
    simp only [check_coverage, hnet, raise_for_status,
      if_neg (show ¬ 400 ≤ resp.code by omega)]
  exact ⟨_, hr, by simp [beq_iff_eq], rfl, rfl, rfl⟩

/-- A 200 metadata response with status "ZERO_RESULTS" and no pano. -/
def covRespZero : HttpResponse :=
  { code := 200, body := { status := some "ZERO_RESULTS", pano_id := none, date := none } }

/-- A metadata network oracle that always returns `covRespZero`. -/
def covNetZero : ℚ → ℚ → Except String HttpResponse := fun _ _ => .ok covRespZero

/-- Claim C8 witness: a concrete "ZERO_RESULTS" response yields
`has_coverage = false` (via the iff and the preserved status) and no
raised error. -/
theorem C8_witness :
    ∃ r : CoverageResult, check_coverage covNetZero 5 6 = .ok r ∧
      (r.has_coverage = true ↔ r.status = "OK") ∧
      r.status = covRespZero.body.status.getD "UNKNOWN" ∧
      r.pano_id = covRespZero.body.pano_id ∧
      r.capture_date = covRespZero.body.date :=
  C8_status_interpretation covNetZero 5 6 covRespZero rfl (by decide) (by decide)

/-- Claim C9 (confirmed): the output filename is one deterministic
function of `(location_id, heading, pitch)` used identically by the
direct image fetcher, the hi-res fetcher and the batch layer's
skip-existing expected-file computation, and
`("loc_00042", 90, 0) ↦ "loc_00042_h090_p+00.jpg"` exactly. -/
theorem C9_naming_determinism :
    (∀ (location_id : String) (heading pitch : ℤ),
      imageFilename location_id heading pitch = hiresFilename location_id heading pitch ∧
      imageFilename location_id heading pitch = expectedFilename location_id heading pitch) ∧
    imageFilename "loc_00042" 90 0 = "loc_00042_h090_p+00.jpg" :=
  ⟨fun _ _ _ => ⟨rfl, rfl⟩, by decide⟩

/-- A metadata network that succeeds (200, status "OK") everywhere except
latitude 2, where the request raises a timeout. -/
def covNetFlaky : ℚ → ℚ → Except String HttpResponse := fun lat _ =>
  if lat = 2 then .error "Connection timed out"
  else .ok { code := 200,
             body := { status := some "OK", pano_id := some "pano1",
                       date := some "2020-01" } }

/-- First location of the two-row counterexample batch. -/
def rowA : Row := { location_id := "loc_00001", lat := 1, lon := 10, city := "delhi" }

/-- Second location; its coverage check raises a transport error. -/
def rowB : Row := { location_id := "loc_00002", lat := 2, lon := 20, city := "delhi" }

/-- Claim C1 counterexample: in a 2-location coverage batch whose second
location's check raises a transport error, the batch does not return 2
records (1 failed): it propagates the exception and returns nothing. -/
theorem C1_counterexample :
    check_coverage_batch covNetFlaky [rowA, rowB] = .error "Connection timed out" := by
  rfl

/-- Claim C1 (corrected): `check_coverage_batch` wraps `check_coverage`
in no try/except, so the first transport error raised by any location's
coverage check propagates out of the batch, aborting the loop and
discarding all accumulated records, instead of producing N records with
one marked failed. -/
theorem C1_transport_error_aborts_batch
    (cnet : ℚ → ℚ → Except String HttpResponse)
    (pre post : List Row) (row : Row) (e : String)
    (hpre : ∀ r ∈ pre, ∃ v, check_coverage cnet r.lat r.lon = .ok v)
    (hrow : check_coverage cnet row.lat row.lon = .error e) :
    check_coverage_batch cnet (pre ++ row :: post) = .error e := by
  induction pre with
  | nil => simp only [List.nil_append, check_coverage_batch, hrow]
  | cons r rest ih =>
    obtain ⟨v, hv⟩ := hpre r (by simp)
    have ih2 := ih (fun x hx => hpre x (by simp [hx]))
    simp only [List.cons_append, check_coverage_batch, hv, List.append_eq, ih2]

/-- Claim C1 witness: the corrected behaviour on the concrete flaky
2-location batch — a good first location, a timeout on the second. -/
theorem C1_witness :
    check_coverage_batch covNetFlaky ([rowA] ++ rowB :: []) = .error "Connection timed out" :=
  C1_transport_error_aborts_batch covNetFlaky [rowA] [] rowB "Connection timed out"
    (by
      intro r hr
      simp only [List.mem_singleton] at hr
      subst hr
      exact ⟨_, rfl⟩)
    rfl

/-! ### Direct image fetcher and download batch -/

/-- Response of the paid image endpoint: status code, Content-Type
header, opaque body bytes. -/
structure ImgHttpResponse where
  code : ℕ
  contentType : String
  content : ℕ
deriving DecidableEq

/-- Character-list prefix test (structural recursion so it evaluates in
the kernel). -/
def charsPref : List Char → List Char → Bool
  | [], _ => true
  | _ :: _, [] => false
  | c :: cs, d :: ds => c = d && charsPref cs ds

/-- Character-list substring test. -/
def charsSub (pat : List Char) : List Char → Bool
  | [] => charsPref pat []
  | d :: ds => charsPref pat (d :: ds) || charsSub pat ds

/-- Python `pat in s` on strings. -/
def strContainsStr (s pat : String) : Bool := charsSub pat.data s.data

/-- `StreetViewClient.download_image` (streetview.py lines 120–206) over
an image-endpoint oracle `inet` (keyed by lat, lon, heading, pitch) and a
filesystem. A raised `requests.get` exception and `raise_for_status` are
caught by the try/except and become failure results; a 2xx response whose
Content-Type does not contain "image" is a failure without a write;
otherwise the body is written to `output_path` (always succeeds in the
model) and the success result carries that path. Every invocation
performs exactly one network call. -/
def download_image (inet : ℚ → ℚ → ℤ → ℤ → Except String ImgHttpResponse)
    (fs : FS) (lat lon : ℚ) (heading : ℤ) (output_path : String) (pitch : ℤ) :
    ImageResult × FS :=
  match inet lat lon heading pitch with
  | .error e =>
    ({ lat := lat, lon := lon, heading := heading, pitch := pitch,
       success := false, error := some e }, fs)
  | .ok resp =>
    match raise_for_status resp.code with
    | .error e =>
      ({ lat := lat, lon := lon, heading := heading, pitch := pitch,
         success := false, error := some e }, fs)
    | .ok _ =>
      if strContainsStr resp.contentType "image" = false then
        ({ lat := lat, lon := lon, heading := heading, pitch := pitch,
           success := false,
           error := some ("Unexpected content type: " ++ resp.contentType) }, fs)
      else
        ({ lat := lat, lon := lon, heading := heading, pitch := pitch,
           success := true, image_path := some output_path }, fs.insert output_path)

/-- `StreetViewClient.download_location_images` (streetview.py lines
208–256): one `download_image` per heading at
`output_dir / imageFilename`. Returns the results in heading order, the
final filesystem, and the number of network calls (one per heading). -/
def download_location_images (inet : ℚ → ℚ → ℤ → ℤ → Except String ImgHttpResponse)
    (fs : FS) (lat lon : ℚ) (location_id output_dir : String) :
    List ℤ → ℤ → List ImageResult × FS × ℕ
  | [], _ => ([], fs, 0)
  | h :: rest, pitch =>
    let path := joinPath output_dir (imageFilename location_id h pitch)
    let s := download_image inet fs lat lon h path pitch
    let r := download_location_images inet s.2 lat lon location_id output_dir rest pitch
    (s.1 :: r.1, r.2.1, 1 + r.2.2)

/-- One row of the download batches' result tables (downloader.py lines
145–158 and 263–276): location columns come from the input row, the rest
from the per-heading result. -/
structure DlRec where
  location_id : String
  city : String
  lat : ℚ
  lon : ℚ
  heading : ℤ
  pitch : ℤ
  image_path : Option String
  success : Bool
  error : Option String
deriving DecidableEq

/-- Record synthesized in the skip-existing branch (downloader.py lines
120–133 and 237–250): success carrying the existing file's path. -/
def synthRec (row : Row) (output_dir : String) (pitch : ℤ) (h : ℤ) : DlRec :=
  { location_id := row.location_id, city := row.city, lat := row.lat,
    lon := row.lon, heading := h, pitch := pitch,
    image_path := some (joinPath output_dir (expectedFilename row.location_id h pitch)),
    success := true, error := none }

/-- Record built from a fetcher's `ImageResult` (downloader.py lines
145–158 and 263–276). -/
def recOfResult (row : Row) (r : ImageResult) : DlRec :=
  { location_id := row.location_id, city := row.city, lat := row.lat,
    lon := row.lon, heading := r.heading, pitch := r.pitch,
    image_path := r.image_path, success := r.success, error := r.error }

/-- Expected files for a location (downloader.py lines 115–118 and
232–235). -/
def expectedPaths (output_dir location_id : String) (headings : List ℤ) (pitch : ℤ) :
    List String :=
  headings.map (fun h => joinPath output_dir (expectedFilename location_id h pitch))

/-- Python `headings or [0, 90, 180, 270]` (`None` and `[]` are falsy). -/
def orDefault (hs : Option (List ℤ)) : List ℤ :=
  match hs with
  | none => [0, 90, 180, 270]
  | some l => if l.isEmpty then [0, 90, 180, 270] else l

/-- Loop body of `download_images_batch` (downloader.py lines 109–158)
for one row: if `skip_existing` and all expected files exist, synthesize
success records from the existing paths with zero network calls;
otherwise fetch all headings via `download_location_images`. -/
def processLoc (inet : ℚ → ℚ → ℤ → ℤ → Except String ImgHttpResponse)
    (output_dir : String) (headings : List ℤ) (pitch : ℤ) (skip : Bool)
    (fs : FS) (row : Row) : List DlRec × FS × ℕ :=
  if skip ∧ (expectedPaths output_dir row.location_id headings pitch).all (fun p => fs p) then
    (headings.map (synthRec row output_dir pitch), fs, 0)
  else
    let d := download_location_images inet fs row.lat row.lon row.location_id
      output_dir headings pitch
    (d.1.map (recOfResult row), d.2.1, d.2.2)

/-- The batch loop shared by both download batches (downloader.py lines
109–160 and 208–278): process rows in order, threading the filesystem,
concatenating records and summing network calls. -/
def runBatch (step : FS → Row → List DlRec × FS × ℕ) : FS → List Row → List DlRec × FS × ℕ
  | fs, [] => ([], fs, 0)
  | fs, row :: rest =>
    let s := step fs row
    let r := runBatch step s.2.1 rest
    (s.1 ++ r.1, r.2.1, s.2.2 + r.2.2)

/-- `download_images_batch` (downloader.py lines 66–160). -/
def download_images_batch (inet : ℚ → ℚ → ℤ → ℤ → Except String ImgHttpResponse)
    (output_dir : String) (headings0 : Option (List ℤ)) (pitch : ℤ) (skip : Bool)
    (fs : FS) (rows : List Row) : List DlRec × FS × ℕ :=
  runBatch (processLoc inet output_dir (orDefault headings0) pitch skip) fs rows

/-! ### Hi-res (panorama) fetcher and batch -/

/-- Resolved panorama metadata (a `streetlevel` panorama object). -/
structure Pano where
  lat : ℚ
  lon : ℚ
deriving DecidableEq

/-- A failure `ImageResult` of the hi-res path. -/
def failRes (lat lon : ℚ) (heading pitch : ℤ) (e : String) : ImageResult :=
  { lat := lat, lon := lon, heading := heading, pitch := pitch,
    success := false, error := some e }

/-- Per-heading loop of `download_location_hires` (streetview.py lines
485–515): crop the cached panorama, then save (the `saveE` oracle stands
for `_crop_panorama` + `mkdir` + `save`; an exception fails only that
heading). Returns results, filesystem, and the attempted output paths. -/
def hiresHeadings (saveE : String → Img → Except String Unit) (pimg : Img)
    (pano : Pano) (location_id output_dir : String) (pitch fov : ℤ) :
    FS → List ℤ → List ImageResult × FS × List String
  | fs, [] => ([], fs, [])
  | fs, h :: rest =>
    let path := joinPath output_dir (hiresFilename location_id h pitch)
    match saveE path (cropPanorama pimg h pitch fov) with
    | .ok _ =>
      let r := hiresHeadings saveE pimg pano location_id output_dir pitch fov
        (fs.insert path) rest
      ({ lat := pano.lat, lon := pano.lon, heading := h, pitch := pitch,
         success := true, image_path := some path } :: r.1, r.2.1, path :: r.2.2)
    | .error e =>
      let r := hiresHeadings saveE pimg pano location_id output_dir pitch fov fs rest
      (failRes pano.lat pano.lon h pitch e :: r.1, r.2.1, path :: r.2.2)

/-- `download_location_hires` (streetview.py lines 399–516) over oracles
`findP` (`sv.find_panorama_by_id`) and `getP` (`sv.get_panorama`). Stage
1 resolves the panorama once; any failure — a raised exception (with
coordinates 0, 0), an unresolved id, or a failed bitmap fetch — produces
the same failure result for every heading with no save attempted. Stage 2
crops and saves per heading. Returns results, filesystem, the number of
panorama-service calls, and the attempted output paths. -/
def download_location_hires (findP : String → Except String (Option Pano))
    (getP : Pano → ℕ → Except String (Option Img))
    (saveE : String → Img → Except String Unit) (fs : FS)
    (pano_id location_id output_dir : String) (headings : List ℤ)
    (pitch fov : ℤ) (zoom : ℕ) : List ImageResult × FS × ℕ × List String :=
  match findP pano_id with
  | .error e => (headings.map (fun h => failRes 0 0 h pitch e), fs, 1, [])
  | .ok none =>
    (headings.map (fun h => failRes 0 0 h pitch ("Panorama not found: " ++ pano_id)),
      fs, 1, [])
  | .ok (some pano) =>
    match getP pano zoom with
    | .error e => (headings.map (fun h => failRes 0 0 h pitch e), fs, 2, [])
    | .ok none =>
      (headings.map
          (fun h => failRes pano.lat pano.lon h pitch "Failed to download panorama"),
        fs, 2, [])
    | .ok (some pimg) =>
      let r := hiresHeadings saveE pimg pano location_id output_dir pitch fov fs headings
      (r.1, r.2.1, 2, r.2.2)

/-- Record for a missing/empty `pano_id` (downloader.py lines 214–228). -/
def noPanoRec (row : Row) (pitch : ℤ) (h : ℤ) : DlRec :=
  { location_id := row.location_id, city := row.city, lat := row.lat,
    lon := row.lon, heading := h, pitch := pitch, image_path := none,
    success := false, error := some "No pano_id available" }

/-- Loop body of `download_images_hires_batch` (downloader.py lines
208–276) for one row: a missing (`pd.isna`) or empty (falsy) `pano_id`
fails every heading before the skip-existing check; then skip-existing as
in the direct batch; otherwise fetch via `download_location_hires`. -/
def processLocHires (findP : String → Except String (Option Pano))
    (getP : Pano → ℕ → Except String (Option Img))
    (saveE : String → Img → Except String Unit) (output_dir : String)
    (headings : List ℤ) (pitch fov : ℤ) (zoom : ℕ) (skip : Bool)
    (fs : FS) (row : Row) : List DlRec × FS × ℕ :=
  if row.pano_id = none ∨ row.pano_id = some "" then
    (headings.map (noPanoRec row pitch), fs, 0)
  else
    if skip ∧ (expectedPaths output_dir row.location_id headings pitch).all (fun p => fs p) then
      (headings.map (synthRec row output_dir pitch), fs, 0)
    else
      let d := download_location_hires findP getP saveE fs (row.pano_id.getD "")
        row.location_id output_dir headings pitch fov zoom
      (d.1.map (recOfResult row), d.2.1, d.2.2.1)

/-- `download_images_hires_batch` (downloader.py lines 163–278). -/
def download_images_hires_batch (findP : String → Except String (Option Pano))
    (getP : Pano → ℕ → Except String (Option Img))
    (saveE : String → Img → Except String Unit) (output_dir : String)
    (headings0 : Option (List ℤ)) (pitch fov : ℤ) (zoom : ℕ) (skip : Bool)
    (fs : FS) (rows : List Row) : List DlRec × FS × ℕ :=
  runBatch
    (processLocHires findP getP saveE output_dir (orDefault headings0) pitch fov zoom skip)
    fs rows

/-! ### Lemmas about the direct fetcher -/

/-- The success `ImageResult` of `download_image`. -/
def imgOkRes (lat lon : ℚ) (h pitch : ℤ) (path : String) : ImageResult :=
  { lat := lat, lon := lon, heading := h, pitch := pitch,
    success := true, image_path := some path }

lemma download_image_cases (inet : ℚ → ℚ → ℤ → ℤ → Except String ImgHttpResponse)
    (fs : FS) (lat lon : ℚ) (h : ℤ) (path : String) (pitch : ℤ) :
    download_image inet fs lat lon h path pitch = (imgOkRes lat lon h pitch path, fs.insert path)
    ∨ ((download_image inet fs lat lon h path pitch).1.success = false
        ∧ (download_image inet fs lat lon h path pitch).2 = fs) := by
  cases hnet : inet lat lon h pitch with
  | error e =>
    rw [download_image, hnet]
    exact Or.inr ⟨rfl, rfl⟩
  | ok resp =>
    simp only [download_image, hnet, raise_for_status]
    by_cases hc : 400 ≤ resp.code
    · rw [if_pos hc]
      exact Or.inr ⟨rfl, rfl⟩
    · rw [if_neg hc]
      by_cases hct : strContainsStr resp.contentType "image" = false
      · rw [if_pos hct]
        exact Or.inr ⟨rfl, rfl⟩
      · rw [if_neg hct]
        exact Or.inl rfl

lemma download_image_mono (inet : ℚ → ℚ → ℤ → ℤ → Except String ImgHttpResponse)
    (fs : FS) (lat lon : ℚ) (h : ℤ) (path : String) (pitch : ℤ) :
    FS.le fs (download_image inet fs lat lon h path pitch).2 := by
  rcases download_image_cases inet fs lat lon h path pitch with hc | hc
  · rw [hc]
    exact FS.le_insert fs path
  · rw [hc.2]
    exact FS.le_refl fs

lemma download_image_success_eq (inet : ℚ → ℚ → ℤ → ℤ → Except String ImgHttpResponse)
    (fs : FS) (lat lon : ℚ) (h : ℤ) (path : String) (pitch : ℤ)
    (hok : (download_image inet fs lat lon h path pitch).1.success = true) :
    download_image inet fs lat lon h path pitch = (imgOkRes lat lon h pitch path, fs.insert path) := by
  rcases download_image_cases inet fs lat lon h path pitch with hc | hc
  · exact hc
  · rw [hc.1] at hok
    cases hok

lemma dli_calls (inet : ℚ → ℚ → ℤ → ℤ → Except String ImgHttpResponse)
    (fs : FS) (lat lon : ℚ) (location_id output_dir : String) (hs : List ℤ) (pitch : ℤ) :
    (download_location_images inet fs lat lon location_id output_dir hs pitch).2.2
      = hs.length := by
  induction hs generalizing fs with
  | nil => rfl
  | cons h rest ih =>
    simp only [download_location_images, ih, List.length_cons]
    omega

lemma dli_mono (inet : ℚ → ℚ → ℤ → ℤ → Except String ImgHttpResponse)
    (fs : FS) (lat lon : ℚ) (location_id output_dir : String) (hs : List ℤ) (pitch : ℤ) :
    FS.le fs (download_location_images inet fs lat lon location_id output_dir hs pitch).2.1 := by
  induction hs generalizing fs with
  | nil => exact FS.le_refl fs
  | cons h rest ih =>
    simp only [download_location_images]
    exact FS.le_trans (download_image_mono inet fs lat lon h _ pitch) (ih _)

lemma dli_success (inet : ℚ → ℚ → ℤ → ℤ → Except String ImgHttpResponse)
    (fs : FS) (lat lon : ℚ) (location_id output_dir : String) (hs : List ℤ) (pitch : ℤ)
    (hsucc : ∀ r ∈ (download_location_images inet fs lat lon location_id output_dir hs pitch).1,
      r.success = true) :
    (download_location_images inet fs lat lon location_id output_dir hs pitch).1
      = hs.map (fun h => imgOkRes lat lon h pitch
          (joinPath output_dir (imageFilename location_id h pitch))) ∧
    ∀ h ∈ hs,
      (download_location_images inet fs lat lon location_id output_dir hs pitch).2.1
        (joinPath output_dir (imageFilename location_id h pitch)) = true := by
  induction hs generalizing fs with
  | nil => exact ⟨rfl, by simp⟩
  | cons h rest ih =>
    have hhead : (download_image inet fs lat lon h
        (joinPath output_dir (imageFilename location_id h pitch)) pitch).1.success = true := by
      apply hsucc
      simp only [download_location_images]
      exact List.mem_cons_self _ _
    have heq := download_image_success_eq inet fs lat lon h
      (joinPath output_dir (imageFilename location_id h pitch)) pitch hhead
    have htail := ih (fs.insert (joinPath output_dir (imageFilename location_id h pitch)))
      (by
        intro r hr
        apply hsucc
        simp only [download_location_images, heq]
        exact List.mem_cons_of_mem _ hr)
    constructor
    · simp only [download_location_images, heq, List.map_cons]
      rw [htail.1]
    · intro h2 hh2
      rcases List.mem_cons.mp hh2 with h2h | h2r
      · subst h2h
        simp only [download_location_images, heq]
        exact dli_mono inet _ lat lon location_id output_dir rest pitch _
          (FS.insert_self fs _)
      · simp only [download_location_images, heq]
        exact htail.2 h2 h2r

/-! ### Skip-existing and batch idempotency lemmas -/

lemma processLoc_skip (inet : ℚ → ℚ → ℤ → ℤ → Except String ImgHttpResponse)
    (output_dir : String) (hs : List ℤ) (pitch : ℤ) (fs : FS) (row : Row)
    (hall : ∀ p ∈ expectedPaths output_dir row.location_id hs pitch, fs p = true) :
    processLoc inet output_dir hs pitch true fs row
      = (hs.map (synthRec row output_dir pitch), fs, 0) := by
  rw [processLoc, if_pos]
  exact ⟨rfl, by simpa [List.all_eq_true] using hall⟩

lemma processLoc_fetch (inet : ℚ → ℚ → ℤ → ℤ → Except String ImgHttpResponse)
    (output_dir : String) (hs : List ℤ) (pitch : ℤ) (skip : Bool) (fs : FS) (row : Row)
    (p0 : String) (hp0 : p0 ∈ expectedPaths output_dir row.location_id hs pitch)
    (hmiss : fs p0 = false) :
    processLoc inet output_dir hs pitch skip fs row
      = ((download_location_images inet fs row.lat row.lon row.location_id
            output_dir hs pitch).1.map (recOfResult row),
         (download_location_images inet fs row.lat row.lon row.location_id
            output_dir hs pitch).2.1,
         hs.length) := by
  rw [processLoc, if_neg (by
    rintro ⟨-, hall⟩
    rw [List.all_eq_true] at hall
    rw [hall p0 hp0] at hmiss
    cases hmiss)]
  simp only [dli_calls]

lemma processLoc_mono (inet : ℚ → ℚ → ℤ → ℤ → Except String ImgHttpResponse)
    (output_dir : String) (hs : List ℤ) (pitch : ℤ) (skip : Bool) (fs : FS) (row : Row) :
    FS.le fs (processLoc inet output_dir hs pitch skip fs row).2.1 := by
  rw [processLoc]
  split
  · exact FS.le_refl fs
  · exact dli_mono inet fs row.lat row.lon row.location_id output_dir hs pitch

lemma processLoc_idem (inet : ℚ → ℚ → ℤ → ℤ → Except String ImgHttpResponse)
    (output_dir : String) (hs : List ℤ) (pitch : ℤ) (fs : FS) (row : Row)
    (hsucc : ∀ r ∈ (processLoc inet output_dir hs pitch true fs row).1, r.success = true) :
    ∀ fs2 : FS, FS.le (processLoc inet output_dir hs pitch true fs row).2.1 fs2 →
      processLoc inet output_dir hs pitch true fs2 row
        = ((processLoc inet output_dir hs pitch true fs row).1, fs2, 0) := by
  by_cases hall : ∀ p ∈ expectedPaths output_dir row.location_id hs pitch, fs p = true
  · have heq := processLoc_skip inet output_dir hs pitch fs row hall
    intro fs2 hle
    rw [heq] at hle
    rw [heq, processLoc_skip inet output_dir hs pitch fs2 row
      (fun p hp => hle p (hall p hp))]
  · push_neg at hall
    obtain ⟨p0, hp0, hmiss⟩ := hall
    have hmiss' : fs p0 = false := by
      cases hfsp : fs p0
      · rfl
      · exact absurd hfsp hmiss
    have heq := processLoc_fetch inet output_dir hs pitch true fs row p0 hp0 hmiss'
    have hsucc2 : ∀ r ∈ (download_location_images inet fs row.lat row.lon
        row.location_id output_dir hs pitch).1, r.success = true := by
      intro r hr
      have := hsucc (recOfResult row r) (by
        rw [heq]
        exact List.mem_map_of_mem _ hr)
      exact this
    obtain ⟨hres, hpaths⟩ := dli_success inet fs row.lat row.lon row.location_id
      output_dir hs pitch hsucc2
    have hrecs : (processLoc inet output_dir hs pitch true fs row).1
        = hs.map (synthRec row output_dir pitch) := by
      rw [heq]
      show ((download_location_images inet fs row.lat row.lon row.location_id
          output_dir hs pitch).1.map (recOfResult row)) = _
      rw [hres, List.map_map]
      rfl
    intro fs2 hle
    have hle2 : FS.le (download_location_images inet fs row.lat row.lon
        row.location_id output_dir hs pitch).2.1 fs2 := by
      rw [heq] at hle
      exact hle
    have hall2 : ∀ p ∈ expectedPaths output_dir row.location_id hs pitch, fs2 p = true := by
      intro p hp
      rw [expectedPaths, List.mem_map] at hp
      obtain ⟨h, hh, rfl⟩ := hp
      exact hle2 _ (hpaths h hh)
    rw [hrecs, processLoc_skip inet output_dir hs pitch fs2 row hall2]

lemma runBatch_idem (step : FS → Row → List DlRec × FS × ℕ)
    (hmono : ∀ fs row, FS.le fs (step fs row).2.1)
    (hstep : ∀ fs row, (∀ r ∈ (step fs row).1, r.success = true) →
      ∀ fs2, FS.le (step fs row).2.1 fs2 → step fs2 row = ((step fs row).1, fs2, 0)) :
    ∀ (rows : List Row) (fs : FS),
      (∀ r ∈ (runBatch step fs rows).1, r.success = true) →
      FS.le fs (runBatch step fs rows).2.1 ∧
      runBatch step (runBatch step fs rows).2.1 rows
        = ((runBatch step fs rows).1, (runBatch step fs rows).2.1, 0) := by
  intro rows
  induction rows with
  | nil => exact fun fs _ => ⟨FS.le_refl fs, rfl⟩
  | cons row rest ih =>
    intro fs hsucc
    have hsS : ∀ r ∈ (step fs row).1, r.success = true := by
      intro r hr
      exact hsucc r (List.mem_append_left _ hr)
    have hsR : ∀ r ∈ (runBatch step (step fs row).2.1 rest).1, r.success = true := by
      intro r hr
      exact hsucc r (List.mem_append_right _ hr)
    obtain ⟨hle2, hidem2⟩ := ih ((step fs row).2.1) hsR
    have hle1 := hmono fs row
    have hstep2 := hstep fs row hsS (runBatch step (step fs row).2.1 rest).2.1 hle2
    constructor
    · exact FS.le_trans hle1 hle2
    · show runBatch step (runBatch step (step fs row).2.1 rest).2.1 (row :: rest)
        = ((step fs row).1 ++ (runBatch step (step fs row).2.1 rest).1, _, 0)
      simp only [runBatch, hstep2, hidem2]

/-! ### Lemmas about the hi-res fetcher -/

/-- Success `ImageResult` of the hi-res per-heading save. -/
def hiresOkRes (pano : Pano) (h pitch : ℤ) (path : String) : ImageResult :=
  { lat := pano.lat, lon := pano.lon, heading := h, pitch := pitch,
    success := true, image_path := some path }

/-- The hi-res loop's outcome for one heading, a function of that heading
alone: crop the cached panorama, attempt the save, and record success or
that heading's failure. -/
def hiresStep (saveE : String → Img → Except String Unit) (pimg : Img) (pano : Pano)
    (location_id output_dir : String) (pitch fov : ℤ) (h : ℤ) : ImageResult :=
  match saveE (joinPath output_dir (hiresFilename location_id h pitch))
      (cropPanorama pimg h pitch fov) with
  | .ok _ =>
    hiresOkRes pano h pitch (joinPath output_dir (hiresFilename location_id h pitch))
  | .error e => failRes pano.lat pano.lon h pitch e

lemma hiresHeadings_map (saveE : String → Img → Except String Unit) (pimg : Img)
    (pano : Pano) (location_id output_dir : String) (pitch fov : ℤ) :
    ∀ (hs : List ℤ) (fs : FS),
      (hiresHeadings saveE pimg pano location_id output_dir pitch fov fs hs).1
        = hs.map (hiresStep saveE pimg pano location_id output_dir pitch fov) ∧
      (hiresHeadings saveE pimg pano location_id output_dir pitch fov fs hs).2.2
        = hs.map (fun h => joinPath output_dir (hiresFilename location_id h pitch)) := by
  intro hs
  induction hs with
  | nil => exact fun fs => ⟨rfl, rfl⟩
  | cons h rest ih =>
    intro fs
    cases hsv : saveE (joinPath output_dir (hiresFilename location_id h pitch))
        (cropPanorama pimg h pitch fov) with
    | ok u =>
      simp only [hiresHeadings, hsv, hiresStep, hiresOkRes, List.map_cons]
      exact ⟨by rw [(ih _).1], by rw [(ih _).2]⟩
    | error e =>
      simp only [hiresHeadings, hsv, hiresStep, failRes, List.map_cons]
      exact ⟨by rw [(ih _).1], by rw [(ih _).2]⟩

lemma hiresHeadings_mono (saveE : String → Img → Except String Unit) (pimg : Img)
    (pano : Pano) (location_id output_dir : String) (pitch fov : ℤ) :
    ∀ (hs : List ℤ) (fs : FS),
      FS.le fs (hiresHeadings saveE pimg pano location_id output_dir pitch fov fs hs).2.1 := by
  intro hs
  induction hs with
  | nil => exact fun fs => FS.le_refl fs
  | cons h rest ih =>
    intro fs
    cases hsv : saveE (joinPath output_dir (hiresFilename location_id h pitch))
        (cropPanorama pimg h pitch fov) with
    | ok u =>
      simp only [hiresHeadings, hsv]
      exact FS.le_trans (FS.le_insert fs _) (ih _)
    | error e =>
      simp only [hiresHeadings, hsv]
      exact ih fs

lemma hiresHeadings_success (saveE : String → Img → Except String Unit) (pimg : Img)
    (pano : Pano) (location_id output_dir : String) (pitch fov : ℤ) :
    ∀ (hs : List ℤ) (fs : FS),
      (∀ r ∈ (hiresHeadings saveE pimg pano location_id output_dir pitch fov fs hs).1,
        r.success = true) →
      (hiresHeadings saveE pimg pano location_id output_dir pitch fov fs hs).1
        = hs.map (fun h => hiresOkRes pano h pitch
            (joinPath output_dir (hiresFilename location_id h pitch))) ∧
      ∀ h ∈ hs,
        (hiresHeadings saveE pimg pano location_id output_dir pitch fov fs hs).2.1
          (joinPath output_dir (hiresFilename location_id h pitch)) = true := by
  intro hs
  induction hs with
  | nil => exact fun fs _ => ⟨rfl, by simp⟩
  | cons h rest ih =>
    intro fs hsucc
    cases hsv : saveE (joinPath output_dir (hiresFilename location_id h pitch))
        (cropPanorama pimg h pitch fov) with
    | error e =>
      exfalso
      have := hsucc (failRes pano.lat pano.lon h pitch e) (by
        simp only [hiresHeadings, hsv]
        exact List.mem_cons_self _ _)
      simp [failRes] at this
    | ok u =>
      have htail := ih (fs.insert (joinPath output_dir (hiresFilename location_id h pitch)))
        (by
          intro r hr
          apply hsucc
          simp only [hiresHeadings, hsv]
          exact List.mem_cons_of_mem _ hr)
      constructor
      · simp only [hiresHeadings, hsv, hiresOkRes, List.map_cons]
        rw [htail.1]
        simp only [hiresOkRes]
      · intro h2 hh2
        rcases List.mem_cons.mp hh2 with h2h | h2r
        · subst h2h
          simp only [hiresHeadings, hsv]
          exact hiresHeadings_mono saveE pimg pano location_id output_dir pitch fov rest _
            _ (FS.insert_self fs _)
        · simp only [hiresHeadings, hsv]
          exact htail.2 h2 h2r

lemma dlh_mono (findP : String → Except String (Option Pano))
    (getP : Pano → ℕ → Except String (Option Img))
    (saveE : String → Img → Except String Unit) (fs : FS)
    (pano_id location_id output_dir : String) (hs : List ℤ)
    (pitch fov : ℤ) (zoom : ℕ) :
    FS.le fs (download_location_hires findP getP saveE fs pano_id location_id
      output_dir hs pitch fov zoom).2.1 := by
  cases hf : findP pano_id with
  | error e =>
    simp only [download_location_hires, hf]
    exact FS.le_refl fs
  | ok op =>
    cases op with
    | none =>
      simp only [download_location_hires, hf]
      exact FS.le_refl fs
    | some pano =>
      cases hg : getP pano zoom with
      | error e =>
        simp only [download_location_hires, hf, hg]
        exact FS.le_refl fs
      | ok oi =>
        cases oi with
        | none =>
          simp only [download_location_hires, hf, hg]
          exact FS.le_refl fs
        | some pimg =>
          simp only [download_location_hires, hf, hg]
          exact hiresHeadings_mono saveE pimg pano location_id output_dir pitch fov hs fs

lemma dlh_success (findP : String → Except String (Option Pano))
    (getP : Pano → ℕ → Except String (Option Img))
    (saveE : String → Img → Except String Unit) (fs : FS)
    (pano_id location_id output_dir : String) (h0 : ℤ) (hs' : List ℤ)
    (pitch fov : ℤ) (zoom : ℕ)
    (hsucc : ∀ r ∈ (download_location_hires findP getP saveE fs pano_id location_id
      output_dir (h0 :: hs') pitch fov zoom).1, r.success = true) :
    ∃ pano pimg, findP pano_id = .ok (some pano) ∧ getP pano zoom = .ok (some pimg) ∧
      (download_location_hires findP getP saveE fs pano_id location_id
          output_dir (h0 :: hs') pitch fov zoom).1
        = (h0 :: hs').map (fun h => hiresOkRes pano h pitch
            (joinPath output_dir (hiresFilename location_id h pitch))) ∧
      ∀ h ∈ h0 :: hs',
        (download_location_hires findP getP saveE fs pano_id location_id
            output_dir (h0 :: hs') pitch fov zoom).2.1
          (joinPath output_dir (hiresFilename location_id h pitch)) = true := by
  cases hf : findP pano_id with
  | error e =>
    exfalso
    have := hsucc (failRes 0 0 h0 pitch e) (by
      simp only [download_location_hires, hf]
      exact List.mem_map_of_mem _ (List.mem_cons_self _ _))
    simp [failRes] at this
  | ok op =>
    cases op with
    | none =>
      exfalso
      have := hsucc (failRes 0 0 h0 pitch ("Panorama not found: " ++ pano_id)) (by
        simp only [download_location_hires, hf]
        exact List.mem_map_of_mem _ (List.mem_cons_self _ _))
      simp [failRes] at this
    | some pano =>
      cases hg : getP pano zoom with
      | error e =>
        exfalso
        have := hsucc (failRes 0 0 h0 pitch e) (by
          simp only [download_location_hires, hf, hg]
          exact List.mem_map_of_mem _ (List.mem_cons_self _ _))
        simp [failRes] at this
      | ok oi =>
        cases oi with
        | none =>
          exfalso
          have := hsucc (failRes pano.lat pano.lon h0 pitch "Failed to download panorama") (by
            simp only [download_location_hires, hf, hg]
            exact List.mem_map_of_mem _ (List.mem_cons_self _ _))
          simp [failRes] at this
        | some pimg =>
          have hh := hiresHeadings_success saveE pimg pano location_id output_dir pitch fov
            (h0 :: hs') fs (by
              intro r hr
              apply hsucc
              simp only [download_location_hires, hf, hg]
              exact hr)
          refine ⟨pano, pimg, rfl, hg, ?_, ?_⟩
          · simp only [download_location_hires, hf, hg]
            exact hh.1
          · intro h hh2
            simp only [download_location_hires, hf, hg]
            exact hh.2 h hh2

lemma processLocHires_skip (findP : String → Except String (Option Pano))
    (getP : Pano → ℕ → Except String (Option Img))
    (saveE : String → Img → Except String Unit) (output_dir : String)
    (hs : List ℤ) (pitch fov : ℤ) (zoom : ℕ) (fs : FS) (row : Row)
    (hp : ¬(row.pano_id = none ∨ row.pano_id = some ""))
    (hall : ∀ p ∈ expectedPaths output_dir row.location_id hs pitch, fs p = true) :
    processLocHires findP getP saveE output_dir hs pitch fov zoom true fs row
      = (hs.map (synthRec row output_dir pitch), fs, 0) := by
  rw [processLocHires, if_neg hp, if_pos]
  exact ⟨rfl, by simpa [List.all_eq_true] using hall⟩

lemma processLocHires_mono (findP : String → Except String (Option Pano))
    (getP : Pano → ℕ → Except String (Option Img))
    (saveE : String → Img → Except String Unit) (output_dir : String)
    (hs : List ℤ) (pitch fov : ℤ) (zoom : ℕ) (skip : Bool) (fs : FS) (row : Row) :
    FS.le fs (processLocHires findP getP saveE output_dir hs pitch fov zoom skip fs row).2.1 := by
  rw [processLocHires]
  split
  · exact FS.le_refl fs
  · split
    · exact FS.le_refl fs
    · exact dlh_mono findP getP saveE fs (row.pano_id.getD "") row.location_id
        output_dir hs pitch fov zoom

lemma processLocHires_fetch (findP : String → Except String (Option Pano))
    (getP : Pano → ℕ → Except String (Option Img))
    (saveE : String → Img → Except String Unit) (output_dir : String)
    (hs : List ℤ) (pitch fov : ℤ) (zoom : ℕ) (skip : Bool) (fs : FS) (row : Row)
    (hp : ¬(row.pano_id = none ∨ row.pano_id = some ""))
    (p0 : String) (hp0 : p0 ∈ expectedPaths output_dir row.location_id hs pitch)
    (hmiss : fs p0 = false) :
    processLocHires findP getP saveE output_dir hs pitch fov zoom skip fs row
      = ((download_location_hires findP getP saveE fs (row.pano_id.getD "")
            row.location_id output_dir hs pitch fov zoom).1.map (recOfResult row),
         (download_location_hires findP getP saveE fs (row.pano_id.getD "")
            row.location_id output_dir hs pitch fov zoom).2.1,
         (download_location_hires findP getP saveE fs (row.pano_id.getD "")
            row.location_id output_dir hs pitch fov zoom).2.2.1) := by
  rw [processLocHires, if_neg hp, if_neg (by
    rintro ⟨-, hall⟩
    rw [List.all_eq_true] at hall
    rw [hall p0 hp0] at hmiss
    cases hmiss)]

lemma processLocHires_idem (findP : String → Except String (Option Pano))
    (getP : Pano → ℕ → Except String (Option Img))
    (saveE : String → Img → Except String Unit) (output_dir : String)
    (hs : List ℤ) (pitch fov : ℤ) (zoom : ℕ) (fs : FS) (row : Row)
    (hsucc : ∀ r ∈ (processLocHires findP getP saveE output_dir hs pitch fov zoom
      true fs row).1, r.success = true) :
    ∀ fs2 : FS,
      FS.le (processLocHires findP getP saveE output_dir hs pitch fov zoom true fs row).2.1 fs2 →
      processLocHires findP getP saveE output_dir hs pitch fov zoom true fs2 row
        = ((processLocHires findP getP saveE output_dir hs pitch fov zoom true fs row).1,
           fs2, 0) := by
  by_cases hp : row.pano_id = none ∨ row.pano_id = some ""
  · have heq : processLocHires findP getP saveE output_dir hs pitch fov zoom true fs row
        = (hs.map (noPanoRec row pitch), fs, 0) := by
      rw [processLocHires, if_pos hp]
    have hnil : hs = [] := by
      cases hs with
      | nil => rfl
      | cons h t =>
        exfalso
        have := hsucc (noPanoRec row pitch h) (by
          rw [heq]
          exact List.mem_map_of_mem _ (List.mem_cons_self _ _))
        simp [noPanoRec] at this
    subst hnil
    intro fs2 _
    rw [heq, processLocHires, if_pos hp]
  · by_cases hall : ∀ p ∈ expectedPaths output_dir row.location_id hs pitch, fs p = true
    · have heq := processLocHires_skip findP getP saveE output_dir hs pitch fov zoom
        fs row hp hall
      intro fs2 hle
      rw [heq] at hle
      rw [heq, processLocHires_skip findP getP saveE output_dir hs pitch fov zoom
        fs2 row hp (fun p hpp => hle p (hall p hpp))]
    · push_neg at hall
      obtain ⟨p0, hp0, hmiss⟩ := hall
      have hmiss' : fs p0 = false := by
        cases hfsp : fs p0
        · rfl
        · exact absurd hfsp hmiss
      have heq := processLocHires_fetch findP getP saveE output_dir hs pitch fov zoom
        true fs row hp p0 hp0 hmiss'
      obtain ⟨h0, hs', rfl⟩ : ∃ h0 hs', hs = h0 :: hs' := by
        cases hs with
        | nil => simp [expectedPaths] at hp0
        | cons a b => exact ⟨a, b, rfl⟩
      have hsucc2 : ∀ r ∈ (download_location_hires findP getP saveE fs
          (row.pano_id.getD "") row.location_id output_dir (h0 :: hs')
          pitch fov zoom).1, r.success = true := by
        intro r hr
        exact hsucc (recOfResult row r) (by
          rw [heq]
          exact List.mem_map_of_mem _ hr)
      obtain ⟨pano, pimg, hf, hg, hres, hpaths⟩ := dlh_success findP getP saveE fs
        (row.pano_id.getD "") row.location_id output_dir h0 hs' pitch fov zoom hsucc2
      have hrecs : (processLocHires findP getP saveE output_dir (h0 :: hs') pitch fov zoom
          true fs row).1 = (h0 :: hs').map (synthRec row output_dir pitch) := by
        rw [heq]
        show ((download_location_hires findP getP saveE fs (row.pano_id.getD "")
          row.location_id output_dir (h0 :: hs') pitch fov zoom).1.map (recOfResult row)) = _
        rw [hres, List.map_map]
        rfl
      intro fs2 hle
      have hle2 : FS.le (download_location_hires findP getP saveE fs
          (row.pano_id.getD "") row.location_id output_dir (h0 :: hs')
          pitch fov zoom).2.1 fs2 := by
        rw [heq] at hle
        exact hle
      have hall2 : ∀ p ∈ expectedPaths output_dir row.location_id (h0 :: hs') pitch,
          fs2 p = true := by
        intro p hpp
        rw [expectedPaths, List.mem_map] at hpp
        obtain ⟨h, hh, rfl⟩ := hpp
        exact hle2 _ (hpaths h hh)
      rw [hrecs, processLocHires_skip findP getP saveE output_dir (h0 :: hs') pitch fov zoom
        fs2 row hp hall2]

/-- Claim C2 (confirmed): with skip-existing enabled, (i) a location all
of whose expected files exist yields one synthesized success record per
heading carrying the existing file's path, with zero network calls and
the filesystem unchanged; (ii) a location with any expected file missing
is re-fetched in full, one network call per heading; (iii) a direct
download batch whose records were all successful, re-run on the resulting
filesystem, performs zero network calls and returns identical records and
filesystem; (iv)–(vi): the same for the hi-res batch (whose rows carry a
non-empty pano id, as its input contract requires) — skip behaviour, a
missing expected file causing a full re-fetch of all headings through
`download_location_hires` (partial file sets are not reused), and the
run-twice identity. -/
theorem C2_skip_existing_idempotency
    (inet : ℚ → ℚ → ℤ → ℤ → Except String ImgHttpResponse)
    (findP : String → Except String (Option Pano))
    (getP : Pano → ℕ → Except String (Option Img))
    (saveE : String → Img → Except String Unit)
    (output_dir : String) (hs : List ℤ) (headings0 : Option (List ℤ))
    (pitch fov : ℤ) (zoom : ℕ) (fs : FS) (row : Row) (rows : List Row) :
    ((∀ p ∈ expectedPaths output_dir row.location_id hs pitch, fs p = true) →
      processLoc inet output_dir hs pitch true fs row
        = (hs.map (synthRec row output_dir pitch), fs, 0)) ∧
    ((∃ p ∈ expectedPaths output_dir row.location_id hs pitch, fs p = false) →
      processLoc inet output_dir hs pitch true fs row
        = ((download_location_images inet fs row.lat row.lon row.location_id
              output_dir hs pitch).1.map (recOfResult row),
           (download_location_images inet fs row.lat row.lon row.location_id
              output_dir hs pitch).2.1,
           hs.length)) ∧
    ((∀ r ∈ (download_images_batch inet output_dir headings0 pitch true fs rows).1,
        r.success = true) →
      download_images_batch inet output_dir headings0 pitch true
          (download_images_batch inet output_dir headings0 pitch true fs rows).2.1 rows
        = ((download_images_batch inet output_dir headings0 pitch true fs rows).1,
           (download_images_batch inet output_dir headings0 pitch true fs rows).2.1, 0)) ∧
    ((¬(row.pano_id = none ∨ row.pano_id = some "") ∧
        ∀ p ∈ expectedPaths output_dir row.location_id hs pitch, fs p = true) →
      processLocHires findP getP saveE output_dir hs pitch fov zoom true fs row
        = (hs.map (synthRec row output_dir pitch), fs, 0)) ∧
    ((¬(row.pano_id = none ∨ row.pano_id = some "") ∧
        ∃ p ∈ expectedPaths output_dir row.location_id hs pitch, fs p = false) →
      processLocHires findP getP saveE output_dir hs pitch fov zoom true fs row
        = ((download_location_hires findP getP saveE fs (row.pano_id.getD "")
              row.location_id output_dir hs pitch fov zoom).1.map (recOfResult row),
           (download_location_hires findP getP saveE fs (row.pano_id.getD "")
              row.location_id output_dir hs pitch fov zoom).2.1,
           (download_location_hires findP getP saveE fs (row.pano_id.getD "")
              row.location_id output_dir hs pitch fov zoom).2.2.1)) ∧
    ((∀ r ∈ (download_images_hires_batch findP getP saveE output_dir headings0
        pitch fov zoom true fs rows).1, r.success = true) →
      download_images_hires_batch findP getP saveE output_dir headings0 pitch fov zoom true
          (download_images_hires_batch findP getP saveE output_dir headings0
            pitch fov zoom true fs rows).2.1 rows
        = ((download_images_hires_batch findP getP saveE output_dir headings0
              pitch fov zoom true fs rows).1,
           (download_images_hires_batch findP getP saveE output_dir headings0
              pitch fov zoom true fs rows).2.1, 0)) := by
  refine ⟨?_, ?_, ?_, ?_, ?_, ?_⟩
  · exact processLoc_skip inet output_dir hs pitch fs row
  · rintro ⟨p0, hp0, hmiss⟩
    exact processLoc_fetch inet output_dir hs pitch true fs row p0 hp0 hmiss
  · intro hsucc
    exact (runBatch_idem _
      (fun fs' row' => processLoc_mono inet output_dir (orDefault headings0) pitch true fs' row')
      (fun fs' row' hsu => processLoc_idem inet output_dir (orDefault headings0) pitch fs' row' hsu)
      rows fs hsucc).2
  · rintro ⟨hp, hall⟩
    exact processLocHires_skip findP getP saveE output_dir hs pitch fov zoom fs row hp hall
  · rintro ⟨hp, p0, hp0, hmiss⟩
    exact processLocHires_fetch findP getP saveE output_dir hs pitch fov zoom true fs row
      hp p0 hp0 hmiss
  · intro hsucc
    exact (runBatch_idem _
      (fun fs' row' => processLocHires_mono findP getP saveE output_dir
        (orDefault headings0) pitch fov zoom true fs' row')
      (fun fs' row' hsu => processLocHires_idem findP getP saveE output_dir
        (orDefault headings0) pitch fov zoom fs' row' hsu)
      rows fs hsucc).2

/-- An image endpoint oracle that always returns a good JPEG response. -/
def inetOK : ℚ → ℚ → ℤ → ℤ → Except String ImgHttpResponse := fun _ _ _ _ =>
  .ok { code := 200, contentType := "image/jpeg", content := 1 }

/-- The empty filesystem. -/
def fsEmpty : FS := fun _ => false

/-- A filesystem on which every file exists. -/
def fsFull : FS := fun _ => true

/-- A location row with a pano id, used in witnesses. -/
def rowC : Row :=
  { location_id := "loc_00007", lat := 3, lon := 4, city := "mumbai",
    pano_id := some "panoX" }

/-- Concrete resolved panorama used in witnesses. -/
def panoX : Pano := { lat := 3, lon := 4 }

/-- Panorama lookup oracle that always resolves to `panoX`. -/
def findPX : String → Except String (Option Pano) := fun _ => .ok (some panoX)

/-- Panorama fetch oracle that always returns the 1000 × 500 bitmap. -/
def getPX : Pano → ℕ → Except String (Option Img) := fun _ _ => .ok (some evenImg)

/-- Save oracle that always succeeds. -/
def saveEX : String → Img → Except String Unit := fun _ _ => .ok ()

/-- Claim C2 witness: the skip branch on an all-present filesystem, the
run-twice identity after a fully successful first direct-batch run, and
the hi-res full re-fetch on a missing expected file, each at concrete
inputs. -/
theorem C2_witness :
    processLoc inetOK "out" [0, 90] 0 true fsFull rowC
      = ([0, 90].map (synthRec rowC "out" 0), fsFull, 0) ∧
    download_images_batch inetOK "out" (some [0, 90]) 0 true
        (download_images_batch inetOK "out" (some [0, 90]) 0 true fsEmpty [rowC]).2.1 [rowC]
      = ((download_images_batch inetOK "out" (some [0, 90]) 0 true fsEmpty [rowC]).1,
         (download_images_batch inetOK "out" (some [0, 90]) 0 true fsEmpty [rowC]).2.1, 0) ∧
    processLocHires findPX getPX saveEX "out" [0, 90] 0 90 3 true fsEmpty rowC
      = ((download_location_hires findPX getPX saveEX fsEmpty (rowC.pano_id.getD "")
            rowC.location_id "out" [0, 90] 0 90 3).1.map (recOfResult rowC),
         (download_location_hires findPX getPX saveEX fsEmpty (rowC.pano_id.getD "")
            rowC.location_id "out" [0, 90] 0 90 3).2.1,
         (download_location_hires findPX getPX saveEX fsEmpty (rowC.pano_id.getD "")
            rowC.location_id "out" [0, 90] 0 90 3).2.2.1) :=
  ⟨(C2_skip_existing_idempotency inetOK findPX getPX saveEX "out" [0, 90] (some [0, 90])
      0 90 3 fsFull rowC [rowC]).1 (by decide),
   (C2_skip_existing_idempotency inetOK findPX getPX saveEX "out" [0, 90] (some [0, 90])
      0 90 3 fsEmpty rowC [rowC]).2.2.1 (by decide),
   (C2_skip_existing_idempotency inetOK findPX getPX saveEX "out" [0, 90] (some [0, 90])
      0 90 3 fsEmpty rowC [rowC]).2.2.2.2.1 (by decide)⟩

/-- Claim C10 (confirmed): in the hi-res path, (i) a missing or empty
pano id fails every heading of that location with the one shared message
"No pano_id available" and no service call; (ii)–(v) a raised lookup
exception, an unresolved id, a raised fetch exception, or a missing
bitmap each fail every heading with one shared root-cause message, the
filesystem untouched and no save attempted (attempt list empty);
(vi) once the panorama is cached, the result list is a per-heading map of
an independent crop-and-save step, so a failure while saving one heading
changes only that heading's entry and the remaining headings proceed. -/
theorem C10_hires_failure_isolation
    (findP : String → Except String (Option Pano))
    (getP : Pano → ℕ → Except String (Option Img))
    (saveE : String → Img → Except String Unit) (fs : FS)
    (pano_id location_id output_dir : String) (hs : List ℤ)
    (pitch fov : ℤ) (zoom : ℕ) (row : Row) (e : String) (pano : Pano) (pimg : Img) :
    ((row.pano_id = none ∨ row.pano_id = some "") →
      processLocHires findP getP saveE output_dir hs pitch fov zoom true fs row
        = (hs.map (noPanoRec row pitch), fs, 0)) ∧
    (findP pano_id = .error e →
      download_location_hires findP getP saveE fs pano_id location_id output_dir
          hs pitch fov zoom
        = (hs.map (fun h => failRes 0 0 h pitch e), fs, 1, [])) ∧
    (findP pano_id = .ok none →
      download_location_hires findP getP saveE fs pano_id location_id output_dir
          hs pitch fov zoom
        = (hs.map (fun h => failRes 0 0 h pitch ("Panorama not found: " ++ pano_id)),
           fs, 1, [])) ∧
    (findP pano_id = .ok (some pano) → getP pano zoom = .error e →
      download_location_hires findP getP saveE fs pano_id location_id output_dir
          hs pitch fov zoom
        = (hs.map (fun h => failRes 0 0 h pitch e), fs, 2, [])) ∧
    (findP pano_id = .ok (some pano) → getP pano zoom = .ok none →
      download_location_hires findP getP saveE fs pano_id location_id output_dir
          hs pitch fov zoom
        = (hs.map (fun h => failRes pano.lat pano.lon h pitch "Failed to download panorama"),
           fs, 2, [])) ∧
    (findP pano_id = .ok (some pano) → getP pano zoom = .ok (some pimg) →
      (download_location_hires findP getP saveE fs pano_id location_id output_dir
          hs pitch fov zoom).1
        = hs.map (hiresStep saveE pimg pano location_id output_dir pitch fov) ∧
      (download_location_hires findP getP saveE fs pano_id location_id output_dir
          hs pitch fov zoom).2.2.2
        = hs.map (fun h => joinPath output_dir (hiresFilename location_id h pitch))) := by
  refine ⟨?_, ?_, ?_, ?_, ?_, ?_⟩
  · intro hp
    rw [processLocHires, if_pos hp]
  · intro hf
    simp only [download_location_hires, hf]
  · intro hf
    simp only [download_location_hires, hf]
  · intro hf hg
    simp only [download_location_hires, hf, hg]
  · intro hf hg
    simp only [download_location_hires, hf, hg]
  · intro hf hg
    constructor
    · simp only [download_location_hires, hf, hg]
      exact (hiresHeadings_map saveE pimg pano location_id output_dir pitch fov hs fs).1
    · simp only [download_location_hires, hf, hg]
      exact (hiresHeadings_map saveE pimg pano location_id output_dir pitch fov hs fs).2

/-- A location row whose pano id is missing. -/
def rowNoPano : Row :=
  { location_id := "loc_00008", lat := 7, lon := 8, city := "chennai", pano_id := none }

/-- A panorama lookup oracle that finds nothing. -/
def findPNone : String → Except String (Option Pano) := fun _ => .ok none

/-- A save oracle failing exactly on the heading-90 file of location
"loc_00009". -/
def saveFlaky : String → Img → Except String Unit := fun p _ =>
  if p = joinPath "out" (hiresFilename "loc_00009" 90 0) then .error "disk full"
  else .ok ()

/-- Claim C10 witness: the missing-pano-id case, the unresolved-id case,
and the per-heading isolation map with a save failing on one heading,
each at concrete inputs. -/
theorem C10_witness :
    processLocHires findPX getPX saveEX "out" [0, 90] 0 90 3 true fsEmpty rowNoPano
      = ([0, 90].map (noPanoRec rowNoPano 0), fsEmpty, 0) ∧
    download_location_hires findPNone getPX saveEX fsEmpty "pZ" "loc_00009" "out"
        [0, 90] 0 90 3
      = ([0, 90].map (fun h => failRes 0 0 h 0 ("Panorama not found: " ++ "pZ")),
         fsEmpty, 1, []) ∧
    (download_location_hires findPX getPX saveFlaky fsEmpty "pY" "loc_00009" "out"
        [0, 90] 0 90 3).1
      = [0, 90].map (hiresStep saveFlaky evenImg panoX "loc_00009" "out" 0 90) :=
  ⟨(C10_hires_failure_isolation findPX getPX saveEX fsEmpty "pZ" "loc_00009" "out"
      [0, 90] 0 90 3 rowNoPano "err" panoX evenImg).1 (Or.inl rfl),
   (C10_hires_failure_isolation findPNone getPX saveEX fsEmpty "pZ" "loc_00009" "out"
      [0, 90] 0 90 3 rowNoPano "err" panoX evenImg).2.2.1 rfl,
   ((C10_hires_failure_isolation findPX getPX saveFlaky fsEmpty "pY" "loc_00009" "out"
      [0, 90] 0 90 3 rowNoPano "err" panoX evenImg).2.2.2.2.2 rfl rfl).1⟩
